import Mathlib

/-!
Shallow embedding of the Freshservice requester-cleanup batch client
(`src/main.py`): the rate-limited HTTP dispatcher (`pace_requests`,
`handle_rate_limiting`, `make_request_with_rate_limit`) and the per-entity
operations built on it (`deactivate_requester`, `reactivate_requester`,
`merge_requesters`, `update_requester_emails`, `add_secondary_emails`,
`replace_secondary_emails`).

Remote HTTP responses are scripted: an operation consumes responses from a
script `Nat → HttpResponse` in call order, and the dispatcher consumes a list
of network events (a transport exception or a response).  Timestamps are
integers (seconds); sleeps are recorded rather than performed.
-/

namespace FSUserCleanup

/-- The `requester.secondary_emails` field of a parsed GET body, as
`add_secondary_emails` reads it: absent (Python defaults it to `[]`),
present but not a list (the `isinstance` check fails), or a list. -/
inductive EmailsField where
  | missing
  | notList
  | list (emails : List String)
deriving DecidableEq

/-- An HTTP response as the program observes it: the status code, the two
rate-limit headers (`x-ratelimit-remaining`, `Retry-After`; `none` = header
absent), and the results of the body parses the operations perform.
`parsedMessage`/`parsedCode`: `none` means `response.json()` raises
`ValueError`; `some m` is the optional `message`/`code` field of the parsed
object.  `parsedActive`: `none` means the parse raises; `some b` is
`body.get("requester", {}).get("active", False)` (missing keys default to
`False`).  `secEmails` is `body.get("requester", {}).get("secondary_emails", [])`. -/
structure HttpResponse where
  status : Nat
  remaining : Option Nat
  retryAfter : Option Nat
  parsedMessage : Option (Option String)
  parsedCode : Option (Option String)
  parsedActive : Option Bool
  secEmails : EmailsField
deriving DecidableEq

/-- A response with the given status, no rate-limit headers, and an empty
JSON object as body. -/
def plainResp (status : Nat) : HttpResponse :=
  ⟨status, none, none, some none, some none, some false, .missing⟩

/-- `MAX_REQUESTS_PER_MINUTE` from the source. -/
def MAX_REQUESTS_PER_MINUTE : Nat := 500

/-- The while-popleft pruning loop of `pace_requests`: timestamps strictly
older than `now - 60` are popped from the front of the deque. -/
def pruneOld (q : List Int) (now : Int) : List Int :=
  q.dropWhile (fun t => t < now - 60)

/-- `pace_requests`: prune the queue, and if `MAX_REQUESTS_PER_MINUTE` or more
entries remain, sleep `60 - (now - oldest)`; then append the current (pre-sleep)
timestamp.  Returns the new queue and the sleep, if one happened. -/
def pace_requests (q : List Int) (now : Int) : List Int × Option Int :=
  let q' := pruneOld q now
  let wait :=
    if MAX_REQUESTS_PER_MINUTE ≤ q'.length then some (60 - (now - q'.headI)) else none
  (q' ++ [now], wait)

/-- The queue after one `pace_requests` call. -/
def paceQueue (q : List Int) (now : Int) : List Int :=
  (pace_requests q now).1

/-- `handle_rate_limiting`: the sleeps it performs, in order.  It sleeps 30
seconds when `x-ratelimit-remaining` (default 100) is below 10, and then
`Retry-After` seconds (default 30) when the status is 429. -/
def handle_rate_limiting (r : HttpResponse) : List Int :=
  (if r.remaining.getD 100 < 10 then [(30 : Int)] else []) ++
    (if r.status = 429 then [(r.retryAfter.getD 30 : Int)] else [])

/-- One scripted network event inside the dispatcher's retry loop: either
`requests.request` raises a `RequestException`, or it returns a response. -/
inductive NetEvent where
  | exn
  | resp (r : HttpResponse)
deriving DecidableEq

/-- One scripted attempt: the value of `time.time()` when the loop iteration
starts, and what the network does. -/
structure Attempt where
  now : Int
  event : NetEvent
deriving DecidableEq

/-- What one `make_request_with_rate_limit` call produced: the response
returned to the caller (`none` if the script ran out while retrying), the
request-budget queue afterwards, the sleeps performed, the number of loop
iterations, and the request sent on each iteration. -/
structure DispatchResult where
  response : Option HttpResponse
  queue : List Int
  sleeps : List Int
  attempts : Nat
  sends : List (String × String)
deriving DecidableEq

/-- `make_request_with_rate_limit`: pace, send, handle rate limiting; on a
transport exception sleep 5 seconds and loop; on a 429 loop (the 429 sleep is
inside `handle_rate_limiting`); otherwise return the response.  `req` is the
(method, url) pair; each iteration sends it unchanged. -/
def make_request_with_rate_limit (req : String × String) (q : List Int) :
    List Attempt → DispatchResult
  | [] => ⟨none, q, [], 0, []⟩
  | a :: rest =>
    let p := pace_requests q a.now
    match a.event with
    | .exn =>
      let res := make_request_with_rate_limit req p.1 rest
      ⟨res.response, res.queue, p.2.toList ++ [(5 : Int)] ++ res.sleeps,
        res.attempts + 1, req :: res.sends⟩
    | .resp r =>
      if r.status = 429 then
        let res := make_request_with_rate_limit req p.1 rest
        ⟨res.response, res.queue, p.2.toList ++ handle_rate_limiting r ++ res.sleeps,
          res.attempts + 1, req :: res.sends⟩
      else
        ⟨some r, p.1, p.2.toList ++ handle_rate_limiting r, 1, [req]⟩

/-- An attempt on which the dispatcher's loop continues: a transport
exception or a 429 response. -/
def retried (a : Attempt) : Bool :=
  match a.event with
  | .exn => true
  | .resp r => r.status = 429

/-- The outcome of one high-level operation, as the spec's
`OperationOutcome` names the printed/logged results. -/
inductive Outcome where
  | success
  | notFound
  | alreadyInTargetState
  | validationFailed
  | remoteError
deriving DecidableEq

/-- Which remote call an operation issued. -/
inductive CallKind where
  | mergeCall
  | reactivateCall
  | deactivateCall
  | getRequesterCall
  | putPrimaryAndClear
  | putSetSecondary
  | putClearSecondary
  | putReplaceSecondary
  | putAddSecondary
  | putExternalId
deriving DecidableEq

/-- A remote call paired with the status code of its response. -/
abbrev Call := CallKind × Nat

/-- The exact 405 body by which the remote API signals an already
deactivated requester. -/
def deleteNotAllowed : String :=
  "DELETE method is not allowed. It should be one of these method(s): GET"

/-- The 400 body code by which the remote API signals an inactive
merge primary. -/
def primaryShouldBeActive : String := "primary_requester_should_be_active"

/-- `deactivate_requester`'s interpretation of the DELETE response:
204 success, 404 not found, 405 already deactivated when the body's
`message` is exactly `deleteNotAllowed` (any other message, a body that
fails to parse, or any other status is a remote error). -/
def deactivate_requester (r : HttpResponse) : Outcome :=
  if r.status = 204 then .success
  else if r.status = 404 then .notFound
  else if r.status = 405 then
    match r.parsedMessage with
    | some (some m) => if m = deleteNotAllowed then .alreadyInTargetState else .remoteError
    | some none => .remoteError
    | none => .remoteError
  else .remoteError

/-- `reactivate_requester` over a response script: the primary PUT consumes
`s i`; on its 404 a follow-up GET consumes `s (i + 1)` and the parsed
`requester.active` decides the outcome.  Returns the outcome, the calls
issued (with their statuses) and the next script index. -/
def reactivate_requester (s : Nat → HttpResponse) (i : Nat) :
    Outcome × List Call × Nat :=
  let r := s i
  if r.status = 200 then (.success, [(.reactivateCall, r.status)], i + 1)
  else if r.status = 404 then
    let g := s (i + 1)
    let o :=
      if g.status = 200 then
        match g.parsedActive with
        | some true => Outcome.alreadyInTargetState
        | some false => Outcome.remoteError
        | none => Outcome.remoteError
      else if g.status = 404 then Outcome.notFound
      else Outcome.remoteError
    (o, [(.reactivateCall, r.status), (.getRequesterCall, g.status)], i + 2)
  else (.remoteError, [(.reactivateCall, r.status)], i + 1)

instance : DecidableEq (Except Unit Outcome) := fun a b =>
  match a, b with
  | .error (), .error () => isTrue rfl
  | .ok x, .ok y =>
    if h : x = y then isTrue (by rw [h]) else isFalse (fun hh => h (Except.ok.inj hh))
  | .error (), .ok _ => isFalse (fun h => Except.noConfusion h)
  | .ok _, .error () => isFalse (fun h => Except.noConfusion h)

/-- One row of `merge_requesters` after both ids parsed: the merge PUT
consumes `s i`.  On a 400 whose body fails to parse, `response.json()`
raises a `ValueError` that escapes to the handler outside the row loop
(`Except.error`).  On the 400 recovery code the row runs the recovery
protocol: reactivate, retry the merge, and on retry success deactivate the
primary again. -/
def merge_attempt_row (s : Nat → HttpResponse) (i : Nat) :
    Except Unit Outcome × List Call × Nat :=
  let r := s i
  if r.status = 200 ∨ r.status = 204 then (.ok .success, [(.mergeCall, r.status)], i + 1)
  else if r.status = 400 then
    match r.parsedCode with
    | none => (.error (), [(.mergeCall, r.status)], i + 1)
    | some c =>
      if c = some primaryShouldBeActive then
        match reactivate_requester s (i + 1) with
        | (_, reCalls, i2) =>
          let rr := s i2
          if rr.status = 200 ∨ rr.status = 204 then
            let d := s (i2 + 1)
            (.ok .success,
              (CallKind.mergeCall, r.status) ::
                reCalls ++ [(.mergeCall, rr.status), (.deactivateCall, d.status)],
              i2 + 2)
          else
            (.ok .remoteError,
              (CallKind.mergeCall, r.status) :: reCalls ++ [(.mergeCall, rr.status)],
              i2 + 1)
      else (.ok .remoteError, [(.mergeCall, r.status)], i + 1)
  else if r.status = 404 then (.ok .notFound, [(.mergeCall, r.status)], i + 1)
  else (.ok .remoteError, [(.mergeCall, r.status)], i + 1)

/-- Whitespace for the purposes of Python's `str.strip()`. -/
def isSpace (c : Char) : Bool := c = ' ' || c = '\t' || c = '\n' || c = '\r'

/-- A decimal digit. -/
def isDigit (c : Char) : Bool := '0' ≤ c && c ≤ '9'

/-- The value of a digit string, most significant first. -/
def digitsVal (acc : Nat) : List Char → Nat
  | [] => acc
  | c :: cs => digitsVal (acc * 10 + (c.toNat - '0'.toNat)) cs

/-- Python `str.strip()`: leading and trailing whitespace removed. -/
def pyStrip (str : String) : String :=
  ⟨((str.data.dropWhile isSpace).reverse.dropWhile isSpace).reverse⟩

/-- Python `int(...)` on a character list: an optional sign followed by at
least one digit; anything else raises `ValueError` (`none`). -/
def pyIntOfChars : List Char → Option Int
  | [] => none
  | '-' :: cs =>
    if cs ≠ [] ∧ cs.all isDigit then some (-(digitsVal 0 cs : Int)) else none
  | '+' :: cs =>
    if cs ≠ [] ∧ cs.all isDigit then some (digitsVal 0 cs : Int) else none
  | cs => if cs.all isDigit then some (digitsVal 0 cs : Int) else none

/-- Python `int(str)` on a CSV field (surrounding whitespace is allowed,
as `int` itself strips it). -/
def pyInt (str : String) : Option Int := pyIntOfChars (pyStrip str).data

/-- The row loop of `merge_requesters`: a row with fewer than two fields is
reported invalid and skipped; then both ids are parsed with `int(...)` — a
parse failure raises a `ValueError` caught only by the handler wrapping the
whole loop, so it aborts the remaining rows (second component `true`), as
does an escaping `ValueError` from `merge_attempt_row`. -/
def merge_requesters (s : Nat → HttpResponse) : Nat → List (List String) → List Outcome × Bool
  | _, [] => ([], false)
  | i, row :: rest =>
    if row.length < 2 then
      let res := merge_requesters s i rest
      (.validationFailed :: res.1, res.2)
    else
      match pyInt (row.getD 0 ""), pyInt (row.getD 1 "") with
      | some _, some _ =>
        match merge_attempt_row s i with
        | (.error _, _, _) => ([], true)
        | (.ok o, _, i2) =>
          let res := merge_requesters s i2 rest
          (o :: res.1, res.2)
      | _, _ => ([], true)

/-- One row of `update_requester_emails`: a short row or an unparseable id is
reported and skipped (the `ValueError` is caught per row); otherwise the
first PUT (set primary, clear secondary emails) consumes `s i`, and only when
it returns 200 does the second PUT (set the secondary email) consume
`s (i + 1)`. -/
def update_emails_row (s : Nat → HttpResponse) (i : Nat) (row : List String) :
    Outcome × List Call × Nat :=
  if row.length < 3 then (.validationFailed, [], i)
  else
    match pyInt (row.getD 0 "") with
    | none => (.validationFailed, [], i)
    | some _ =>
      let r1 := s i
      if r1.status = 200 then
        let r2 := s (i + 1)
        if r2.status = 200 then
          (.success, [(.putPrimaryAndClear, r1.status), (.putSetSecondary, r2.status)], i + 2)
        else
          (.remoteError, [(.putPrimaryAndClear, r1.status), (.putSetSecondary, r2.status)], i + 2)
      else (.remoteError, [(.putPrimaryAndClear, r1.status)], i + 1)

/-- `row[0]` is missing or blank (`not row or not row[0].strip()`). -/
def rowIdMissing (row : List String) : Bool :=
  row.isEmpty || pyStrip (row.headD "") = ""

/-- The stripped, non-empty email fields of `row[1:]`. -/
def rowEmails (row : List String) : List String :=
  ((row.drop 1).filter (fun e => ¬ pyStrip e = "")).map pyStrip

/-- One row of `replace_secondary_emails`: missing or unparseable ids are
logged and skipped (per-row `except`); otherwise the clear PUT consumes
`s i`, and only when it returns 200 does the set PUT consume `s (i + 1)`. -/
def replace_row (s : Nat → HttpResponse) (i : Nat) (row : List String) :
    Outcome × List Call × Nat :=
  if rowIdMissing row then (.validationFailed, [], i)
  else
    match pyInt (pyStrip (row.headD "")) with
    | none => (.validationFailed, [], i)
    | some _ =>
      let r1 := s i
      if r1.status = 200 then
        let r2 := s (i + 1)
        if r2.status = 200 then
          (.success, [(.putClearSecondary, r1.status), (.putReplaceSecondary, r2.status)], i + 2)
        else
          (.remoteError, [(.putClearSecondary, r1.status), (.putReplaceSecondary, r2.status)], i + 2)
      else (.remoteError, [(.putClearSecondary, r1.status)], i + 1)

/-- The row loop of `replace_secondary_emails`: every row independently
produces exactly one outcome; no row aborts the rest. -/
def replace_secondary_emails (s : Nat → HttpResponse) : Nat → List (List String) → List Outcome
  | _, [] => []
  | i, row :: rest =>
    match replace_row s i row with
    | (o, _, i2) => o :: replace_secondary_emails s i2 rest

/-- `body.get("requester", {}).get("secondary_emails", [])` followed by the
`isinstance(..., list)` check: a missing field defaults to `[]`, a non-list
value is rejected. -/
def existingOf : EmailsField → Option (List String)
  | .missing => some []
  | .notList => none
  | .list l => some l

/-- `list(set(existing_secondary_emails + secondary_emails_to_add))`: the
duplicate-free combination of existing and added emails (Python's set order
is arbitrary; the model fixes first-occurrence order). -/
def new_secondary_emails (existing toAdd : List String) : List String :=
  (existing ++ toAdd).dedup

/-- One row of `add_secondary_emails`: after parsing the id and the non-empty
emails to add, the GET consumes `s i`; on 200 with a list-shaped
`secondary_emails` the PUT consumes `s (i + 1)` with body
`new_secondary_emails existing toAdd`.  Returns the outcome, the PUT body if
a PUT was issued, the calls, and the next index. -/
def add_secondary_row (s : Nat → HttpResponse) (i : Nat) (row : List String) :
    Outcome × Option (List String) × List Call × Nat :=
  if row.length < 2 then (.validationFailed, none, [], i)
  else
    match pyInt (row.getD 0 "") with
    | none => (.validationFailed, none, [], i)
    | some _ =>
      let toAdd := rowEmails row
      if toAdd = [] then (.validationFailed, none, [], i)
      else
        let g := s i
        if g.status = 200 then
          match existingOf g.secEmails with
          | none => (.remoteError, none, [(.getRequesterCall, g.status)], i + 1)
          | some existing =>
            let body := new_secondary_emails existing toAdd
            let p := s (i + 1)
            if p.status = 200 then
              (.success, some body, [(.getRequesterCall, g.status), (.putAddSecondary, p.status)], i + 2)
            else
              (.remoteError, some body, [(.getRequesterCall, g.status), (.putAddSecondary, p.status)], i + 2)
        else if g.status = 404 then (.notFound, none, [(.getRequesterCall, g.status)], i + 1)
        else (.remoteError, none, [(.getRequesterCall, g.status)], i + 1)

/-- The row loop of `update_requester_emails`: short rows are skipped with
`continue` and the per-row `except` catches a `ValueError` inside the loop,
so every row independently produces exactly one outcome; no row aborts the
rest. -/
def update_requester_emails (s : Nat → HttpResponse) : Nat → List (List String) → List Outcome
  | _, [] => []
  | i, row :: rest =>
    match update_emails_row s i row with
    | (o, _, i2) => o :: update_requester_emails s i2 rest

/-- The row loop of `add_secondary_emails` (after the header row): short
rows are skipped with `continue` and the per-row `except` catches a
`ValueError` inside the loop, so every row independently produces exactly
one outcome; no row aborts the rest. -/
def add_secondary_emails (s : Nat → HttpResponse) : Nat → List (List String) → List Outcome
  | _, [] => []
  | i, row :: rest =>
    match add_secondary_row s i row with
    | (o, _, _, i2) => o :: add_secondary_emails s i2 rest

/-- One row of `update_requester_external_id`: a short row or an unparseable
id is reported and skipped (the `ValueError` is caught per row); otherwise
the single PUT consumes `s i`: 200 success, 404 not found, anything else a
remote error. -/
def update_external_id_row (s : Nat → HttpResponse) (i : Nat) (row : List String) :
    Outcome × List Call × Nat :=
  if row.length < 2 then (.validationFailed, [], i)
  else
    match pyInt (row.getD 0 "") with
    | none => (.validationFailed, [], i)
    | some _ =>
      let r := s i
      if r.status = 200 then (.success, [(.putExternalId, r.status)], i + 1)
      else if r.status = 404 then (.notFound, [(.putExternalId, r.status)], i + 1)
      else (.remoteError, [(.putExternalId, r.status)], i + 1)

/-- The row loop of `update_requester_external_id` (after the header row):
every row independently produces exactly one outcome; no row aborts the
rest. -/
def update_requester_external_id (s : Nat → HttpResponse) :
    Nat → List (List String) → List Outcome
  | _, [] => []
  | i, row :: rest =>
    match update_external_id_row s i row with
    | (o, _, i2) => o :: update_requester_external_id s i2 rest

/-- Modelled from the spec: the remote requester's active flag (the remote
system is the single source of truth and not in `src/`).  A reactivate call
answered 200 activates the requester; a deactivate call answered 204
deactivates it; no other call changes the flag. -/
def applyCall (active : Bool) : Call → Bool
  | (.reactivateCall, st) => if st = 200 then true else active
  | (.deactivateCall, st) => if st = 204 then false else active
  | _ => active

/-- The requester's active flag after a sequence of calls. -/
def finalActive (init : Bool) (calls : List Call) : Bool :=
  calls.foldl applyCall init

/-- A finite response script, padded with a status-0 response. -/
def scriptOf (l : List HttpResponse) : Nat → HttpResponse :=
  fun i => l.getD i (plainResp 0)

/-- The 400 merge response whose body carries the inactive-primary code. -/
def mergeInactive400 : HttpResponse :=
  ⟨400, none, none, some none, some (some primaryShouldBeActive), some false, .missing⟩

/-- A 200 GET response whose body's `requester.active` is `true`. -/
def activeTrue200 : HttpResponse :=
  ⟨200, none, none, some none, some none, some true, .missing⟩

/-- The request budget after one dispatcher call at time 0 answered by a
single 200 response. -/
def okCallQueue (q : List Int) : List Int :=
  (make_request_with_rate_limit ("PUT", "u") q [⟨0, .resp (plainResp 200)⟩]).queue

/-- The request budget after `n` such dispatcher calls, starting from the
empty budget. -/
def budgetAfterCalls : Nat → List Int
  | 0 => []
  | n + 1 => okCallQueue (budgetAfterCalls n)

/-- How many budget entries lie within the trailing 60-second window at
instant `T`. -/
def entriesInWindow (T : Int) (q : List Int) : Nat :=
  (q.filter (fun t => decide (T - 60 ≤ t ∧ t ≤ T))).length

/-- The deactivate outcome as claim C6 words it: 204 success, 404 not found,
405 with the exact message already-in-target-state, every other 405 body and
every other status a remote error. -/
def deactivateClaimSpec (r : HttpResponse) : Outcome :=
  if r.status = 204 then .success
  else if r.status = 404 then .notFound
  else if r.status = 405 then
    if r.parsedMessage = some (some deleteNotAllowed) then .alreadyInTargetState
    else .remoteError
  else .remoteError

/-- The outcome of the follow-up GET as claim C7 words it: 200 with
`requester.active = true` already-in-target-state, 200 otherwise a remote
error (never success), 404 not found, anything else a remote error. -/
def reactivateGetClaimSpec (g : HttpResponse) : Outcome :=
  if g.status = 200 then
    match g.parsedActive with
    | some true => .alreadyInTargetState
    | _ => .remoteError
  else if g.status = 404 then .notFound
  else .remoteError

theorem dispatch_response_not_429 (req : String × String) :
    ∀ (s : List Attempt) (q : List Int) (r : HttpResponse),
      (make_request_with_rate_limit req q s).response = some r → r.status ≠ 429 := by
  intro s
  induction s with
  | nil => intro q r h; simp [make_request_with_rate_limit] at h
  | cons a rest ih =>
    intro q r h
    rcases ha : a.event with - | r'
    · simp only [make_request_with_rate_limit, ha] at h
      exact ih _ r h
    · simp only [make_request_with_rate_limit, ha] at h
      by_cases h429 : r'.status = 429
      · rw [if_pos h429] at h
        exact ih _ r h
      · rw [if_neg h429] at h
        simp only [Option.some.injEq] at h
        rw [← h]
        exact h429

theorem dispatch_eventually_returns (req : String × String) :
    ∀ (s : List Attempt) (q : List Int),
      (∃ a ∈ s, ∃ rr, a.event = .resp rr ∧ rr.status ≠ 429) →
      ((make_request_with_rate_limit req q s).response).isSome := by
  intro s
  induction s with
  | nil => intro q h; simp at h
  | cons a rest ih =>
    intro q h
    obtain ⟨a', ha', rr, he, hne⟩ := h
    rcases hev : a.event with - | r'
    · simp only [make_request_with_rate_limit, hev]
      rcases List.mem_cons.mp ha' with h' | h'
      · rw [h', hev] at he; cases he
      · exact ih _ ⟨a', h', rr, he, hne⟩
    · simp only [make_request_with_rate_limit, hev]
      by_cases h429 : r'.status = 429
      · rw [if_pos h429]
        rcases List.mem_cons.mp ha' with h' | h'
        · rw [h', hev] at he
          cases he
          exact absurd h429 hne
        · exact ih _ ⟨a', h', rr, he, hne⟩
      · rw [if_neg h429]
        simp

theorem dispatch_step_429 (req : String × String) (q : List Int) (now : Int)
    (r : HttpResponse) (rest : List Attempt) (h : r.status = 429) :
    make_request_with_rate_limit req q (⟨now, .resp r⟩ :: rest) =
      ⟨(make_request_with_rate_limit req (paceQueue q now) rest).response,
        (make_request_with_rate_limit req (paceQueue q now) rest).queue,
        (pace_requests q now).2.toList ++
          ((if r.remaining.getD 100 < 10 then [(30 : Int)] else []) ++
            ([(r.retryAfter.getD 30 : Int)] ++
              (make_request_with_rate_limit req (paceQueue q now) rest).sleeps)),
        (make_request_with_rate_limit req (paceQueue q now) rest).attempts + 1,
        req :: (make_request_with_rate_limit req (paceQueue q now) rest).sends⟩ := by
  simp only [make_request_with_rate_limit, handle_rate_limiting, h, if_pos rfl, paceQueue]
  simp

/-- C1: the dispatcher never returns a 429 to the operation layer: whatever
response it returns has status ≠ 429; when the remote eventually answers
with a non-429 response a response is returned; and on each 429 it sleeps
`Retry-After` seconds (default 30 when the header is absent) and loops back,
re-pacing the budget and re-sending the identical request. -/
theorem claim_C1 :
    (∀ (req : String × String) (s : List Attempt) (q : List Int) (r : HttpResponse),
      (make_request_with_rate_limit req q s).response = some r → r.status ≠ 429) ∧
    (∀ (req : String × String) (s : List Attempt) (q : List Int),
      (∃ a ∈ s, ∃ rr, a.event = .resp rr ∧ rr.status ≠ 429) →
      ((make_request_with_rate_limit req q s).response).isSome) ∧
    (∀ (req : String × String) (q : List Int) (now : Int) (r : HttpResponse)
      (rest : List Attempt), r.status = 429 →
      make_request_with_rate_limit req q (⟨now, .resp r⟩ :: rest) =
        ⟨(make_request_with_rate_limit req (paceQueue q now) rest).response,
          (make_request_with_rate_limit req (paceQueue q now) rest).queue,
          (pace_requests q now).2.toList ++
            ((if r.remaining.getD 100 < 10 then [(30 : Int)] else []) ++
              ([(r.retryAfter.getD 30 : Int)] ++
                (make_request_with_rate_limit req (paceQueue q now) rest).sleeps)),
          (make_request_with_rate_limit req (paceQueue q now) rest).attempts + 1,
          req :: (make_request_with_rate_limit req (paceQueue q now) rest).sends⟩) :=
  ⟨dispatch_response_not_429, dispatch_eventually_returns,
    fun req q now r rest h => dispatch_step_429 req q now r rest h⟩

/-- C1 witness: a 429 answered by a 200 — the returned response is the 200,
a response is returned, and the 429 step sleeps the default 30 seconds and
recurses on the re-paced budget with the identical request. -/
theorem claim_C1_witness :
    (plainResp 200).status ≠ 429 ∧
    ((make_request_with_rate_limit ("GET", "u") []
      [⟨0, .resp (plainResp 429)⟩, ⟨0, .resp (plainResp 200)⟩]).response).isSome ∧
    make_request_with_rate_limit ("GET", "u") [] (⟨0, .resp (plainResp 429)⟩ ::
        [⟨0, .resp (plainResp 200)⟩]) =
      ⟨(make_request_with_rate_limit ("GET", "u") (paceQueue [] 0)
          [⟨0, .resp (plainResp 200)⟩]).response,
        (make_request_with_rate_limit ("GET", "u") (paceQueue [] 0)
          [⟨0, .resp (plainResp 200)⟩]).queue,
        (pace_requests [] 0).2.toList ++
          ((if (plainResp 429).remaining.getD 100 < 10 then [(30 : Int)] else []) ++
            ([((plainResp 429).retryAfter.getD 30 : Int)] ++
              (make_request_with_rate_limit ("GET", "u") (paceQueue [] 0)
                [⟨0, .resp (plainResp 200)⟩]).sleeps)),
        (make_request_with_rate_limit ("GET", "u") (paceQueue [] 0)
          [⟨0, .resp (plainResp 200)⟩]).attempts + 1,
        ("GET", "u") :: (make_request_with_rate_limit ("GET", "u") (paceQueue [] 0)
          [⟨0, .resp (plainResp 200)⟩]).sends⟩ := by
  refine ⟨?_, ?_, ?_⟩
  · exact claim_C1.1 ("GET", "u")
      [⟨0, .resp (plainResp 429)⟩, ⟨0, .resp (plainResp 200)⟩] [] (plainResp 200) (by decide)
  · exact claim_C1.2.1 ("GET", "u")
      [⟨0, .resp (plainResp 429)⟩, ⟨0, .resp (plainResp 200)⟩] []
      ⟨⟨0, .resp (plainResp 200)⟩, by simp, plainResp 200, rfl, by decide⟩
  · exact claim_C1.2.2 ("GET", "u") [] 0 (plainResp 429) [⟨0, .resp (plainResp 200)⟩] rfl

/-- C10: the budget queue after a dispatcher call is exactly the initial
queue threaded through one `pace_requests` per loop iteration (so every
iteration, including those after an exception or a 429, re-runs pacing and
appends one fresh timestamp, and the budget changes only through
`pace_requests`); the number of iterations is one more than the number of
leading retried attempts, capped by the script; and each pacing step is a
prune followed by the append of the fresh timestamp. -/
theorem claim_C10 :
    (∀ (req : String × String) (s : List Attempt) (q : List Int),
      (make_request_with_rate_limit req q s).queue =
        ((s.take (make_request_with_rate_limit req q s).attempts).map Attempt.now).foldl
          paceQueue q) ∧
    (∀ (req : String × String) (s : List Attempt) (q : List Int),
      (make_request_with_rate_limit req q s).attempts =
        min ((s.takeWhile retried).length + 1) s.length) ∧
    (∀ (q : List Int) (now : Int), paceQueue q now = pruneOld q now ++ [now]) := by
  refine ⟨?_, ?_, fun q now => rfl⟩
  · intro req s
    induction s with
    | nil => intro q; simp [make_request_with_rate_limit]
    | cons a rest ih =>
      intro q
      rcases ha : a.event with - | r'
      · simp only [make_request_with_rate_limit, ha]
        rw [List.take_succ_cons, List.map_cons, List.foldl_cons]
        exact ih (paceQueue q a.now)
      · simp only [make_request_with_rate_limit, ha]
        by_cases h429 : r'.status = 429
        · rw [if_pos h429]
          simp only []
          rw [List.take_succ_cons, List.map_cons, List.foldl_cons]
          exact ih (paceQueue q a.now)
        · rw [if_neg h429]
          simp [paceQueue]
  · intro req s
    induction s with
    | nil => intro q; simp [make_request_with_rate_limit]
    | cons a rest ih =>
      intro q
      rcases ha : a.event with - | r'
      · simp only [make_request_with_rate_limit, ha]
        have ht : retried a = true := by simp [retried, ha]
        rw [ih ((pace_requests q a.now).1), List.takeWhile_cons_of_pos ht,
          List.length_cons, List.length_cons]
        omega
      · simp only [make_request_with_rate_limit, ha]
        by_cases h429 : r'.status = 429
        · have ht : retried a = true := by simp [retried, ha, h429]
          rw [if_pos h429]
          dsimp only
          rw [ih ((pace_requests q a.now).1), List.takeWhile_cons_of_pos ht,
            List.length_cons, List.length_cons]
          omega
        · have ht : ¬ retried a = true := by simp [retried, ha, h429]
          rw [if_neg h429]
          rw [List.takeWhile_cons_of_neg ht]
          simp

theorem pruneOld_mem_ge (now : Int) :
    ∀ q : List Int, List.Sorted (· ≤ ·) q → ∀ t ∈ pruneOld q now, now - 60 ≤ t := by
  intro q
  induction q with
  | nil => intro _ t ht; simp [pruneOld] at ht
  | cons a tl ih =>
    intro hs t ht
    rw [List.sorted_cons] at hs
    unfold pruneOld at ht
    rw [List.dropWhile_cons] at ht
    by_cases hcond : a < now - 60
    · rw [if_pos (by simpa using hcond)] at ht
      exact ih hs.2 t ht
    · rw [if_neg (by simpa using hcond)] at ht
      rcases List.mem_cons.mp ht with h | h
      · subst h; omega
      · have := hs.1 t h
        omega

/-- C2 (amended): each pace step prunes entries older than `now - 60` and
appends the pre-sleep timestamp; with at least 500 survivors it sleeps
`60 - (now - oldest)`; and whenever fewer than 500 entries survive pruning,
no wait occurs and the resulting budget holds at most 500 entries, all of
them within the trailing 60-second window.  (The at-most-500 bound does not
hold unconditionally: see the counterexample.) -/
theorem claim_C2 :
    ∀ (q : List Int) (now : Int), List.Sorted (· ≤ ·) q → (∀ t ∈ q, t ≤ now) →
      (pace_requests q now).1 = pruneOld q now ++ [now] ∧
      (MAX_REQUESTS_PER_MINUTE ≤ (pruneOld q now).length →
        (pace_requests q now).2 = some (60 - (now - (pruneOld q now).headI))) ∧
      ((pruneOld q now).length < MAX_REQUESTS_PER_MINUTE →
        (pace_requests q now).2 = none ∧
        (pace_requests q now).1.length ≤ MAX_REQUESTS_PER_MINUTE ∧
        ∀ t ∈ (pace_requests q now).1, now - 60 ≤ t ∧ t ≤ now) := by
  intro q now hs hle
  refine ⟨rfl, ?_, ?_⟩
  · intro h
    show (if MAX_REQUESTS_PER_MINUTE ≤ (pruneOld q now).length then
      some (60 - (now - (pruneOld q now).headI)) else none) = _
    rw [if_pos h]
  · intro h
    refine ⟨?_, ?_, ?_⟩
    · show (if MAX_REQUESTS_PER_MINUTE ≤ (pruneOld q now).length then
        some (60 - (now - (pruneOld q now).headI)) else none) = none
      rw [if_neg (by omega)]
    · show (pruneOld q now ++ [now]).length ≤ MAX_REQUESTS_PER_MINUTE
      rw [List.length_append]
      simp only [List.length_singleton]
      omega
    · intro t ht
      rw [show (pace_requests q now).1 = pruneOld q now ++ [now] from rfl] at ht
      rcases List.mem_append.mp ht with h1 | h1
      · exact ⟨pruneOld_mem_ge now q hs t h1,
          hle t (List.Sublist.mem h1 (List.dropWhile_sublist _))⟩
      · have : t = now := by simpa using h1
        subst this
        exact ⟨by omega, le_refl t⟩

/-- C2 witness: a sorted two-entry budget at time 0 paces without waiting
into the three-entry budget, within the bound. -/
theorem claim_C2_witness :
    (pace_requests [(0 : Int), 0] 0).1 = [0, 0, 0] ∧
    (pace_requests [(0 : Int), 0] 0).2 = none := by
  have h := claim_C2 [0, 0] 0 (by simp) (by decide)
  exact ⟨by rw [h.1]; decide, (h.2.2 (by decide)).1⟩

theorem okCallQueue_pace (q : List Int) : okCallQueue q = paceQueue q 0 := rfl

theorem paceQueue_replicate_zero (n : Nat) :
    paceQueue (List.replicate n (0 : Int)) 0 = List.replicate (n + 1) (0 : Int) := by
  cases n with
  | zero => rfl
  | succ m =>
    show pruneOld (List.replicate (m + 1) (0 : Int)) 0 ++ [0] = _
    unfold pruneOld
    rw [List.replicate_succ, List.dropWhile_cons]
    rw [if_neg (by decide)]
    rw [← List.replicate_succ]
    exact (List.replicate_succ' (m + 1) (0 : Int)).symm

theorem budgetAfterCalls_replicate : ∀ n, budgetAfterCalls n = List.replicate n (0 : Int)
  | 0 => rfl
  | n + 1 => by
    show okCallQueue (budgetAfterCalls n) = _
    rw [okCallQueue_pace, budgetAfterCalls_replicate n, paceQueue_replicate_zero]

theorem entriesInWindow_zero_replicate (n : Nat) :
    entriesInWindow 0 (List.replicate n (0 : Int)) = n := by
  induction n with
  | zero => rfl
  | succ m ih =>
    unfold entriesInWindow at ih ⊢
    rw [List.replicate_succ, List.filter_cons, if_pos (by decide), List.length_cons, ih]

/-- C2 counterexample: after 501 dispatcher calls, each answered by a single
200 response at time 0, the request budget holds 501 entries, every one of
them within the trailing 60-second window — more than the claimed ceiling of
500.  (The 501st call sleeps, but appends its pre-sleep timestamp without
re-pruning, so the claimed at-no-instant bound fails.) -/
theorem claim_C2_counterexample :
    MAX_REQUESTS_PER_MINUTE < entriesInWindow 0 (budgetAfterCalls 501) ∧
    entriesInWindow 0 (budgetAfterCalls 501) = 501 := by
  rw [budgetAfterCalls_replicate, entriesInWindow_zero_replicate]
  exact ⟨by norm_num [MAX_REQUESTS_PER_MINUTE], rfl⟩

/-- C3: a merge answered 400 with the inactive-primary code, followed by a
successful reactivate, a successful retry-merge and a successful deactivate,
issues exactly four calls in the order merge, reactivate, merge, deactivate,
reports Success, and the final deactivate restores the primary's inactive
state. -/
theorem claim_C3 :
    ∀ (s : Nat → HttpResponse) (i : Nat),
      (s i).status = 400 → (s i).parsedCode = some (some primaryShouldBeActive) →
      (s (i + 1)).status = 200 →
      ((s (i + 2)).status = 200 ∨ (s (i + 2)).status = 204) →
      (s (i + 3)).status = 204 →
      merge_attempt_row s i =
        (.ok .success,
          [(.mergeCall, 400), (.reactivateCall, 200), (.mergeCall, (s (i + 2)).status),
            (.deactivateCall, 204)], i + 4) ∧
      finalActive false
        [(.mergeCall, 400), (.reactivateCall, 200), (.mergeCall, (s (i + 2)).status),
          (.deactivateCall, 204)] = false := by
  intro s i h0 hc h1 h2 h3
  have e2 : i + 1 + 1 = i + 2 := by omega
  have e3 : i + 2 + 1 = i + 3 := by omega
  have e4 : i + 2 + 2 = i + 4 := by omega
  constructor
  · rcases h2 with h2 | h2 <;>
      simp [merge_attempt_row, reactivate_requester, h0, hc, h1, e2, e3, e4, h2, h3]
  · rcases h2 with h2 | h2 <;> rw [h2] <;> decide

/-- C3 witness: the four-response script 400-code / 200 / 200 / 204 yields
Success with exactly the four calls merge, reactivate, merge, deactivate. -/
theorem claim_C3_witness :
    merge_attempt_row (scriptOf [mergeInactive400, plainResp 200, plainResp 200,
        plainResp 204]) 0 =
      (.ok .success,
        [(.mergeCall, 400), (.reactivateCall, 200), (.mergeCall, 200),
          (.deactivateCall, 204)], 4) ∧
    finalActive false
      [(.mergeCall, 400), (.reactivateCall, 200), (.mergeCall, 200),
        (.deactivateCall, 204)] = false := by
  have h := claim_C3 (scriptOf [mergeInactive400, plainResp 200, plainResp 200, plainResp 204]) 0
    (by decide) (by decide) (by decide) (Or.inl (by decide)) (by decide)
  exact ⟨by simpa using h.1, by simpa using h.2⟩

/-- C4: when the recovery retry-merge fails (any status other than 200/204
after a successful reactivation), the outcome is RemoteError, no deactivate
call is issued, and the primary is left reactivated — its activation state
differs from its pre-operation (inactive) value. -/
theorem claim_C4 :
    ∀ (s : Nat → HttpResponse) (i : Nat) (st : Nat),
      (s i).status = 400 → (s i).parsedCode = some (some primaryShouldBeActive) →
      (s (i + 1)).status = 200 → (s (i + 2)).status = st → ¬(st = 200 ∨ st = 204) →
      merge_attempt_row s i =
        (.ok .remoteError,
          [(.mergeCall, 400), (.reactivateCall, 200), (.mergeCall, st)], i + 3) ∧
      CallKind.deactivateCall ∉
        ([(.mergeCall, 400), (.reactivateCall, 200), (.mergeCall, st)] : List Call).map
          Prod.fst ∧
      finalActive false [(.mergeCall, 400), (.reactivateCall, 200), (.mergeCall, st)] = true := by
  intro s i st h0 hc h1 h2 hne
  have e2 : i + 1 + 1 = i + 2 := by omega
  have e3 : i + 2 + 1 = i + 3 := by omega
  refine ⟨?_, ?_, ?_⟩
  · simp [merge_attempt_row, reactivate_requester, h0, hc, h1, e2, e3, h2, hne]
  · simp
  · rfl

/-- C4 witness: a retry-merge answered 500 leaves a RemoteError, no
deactivate call, and an activated primary. -/
theorem claim_C4_witness :
    merge_attempt_row (scriptOf [mergeInactive400, plainResp 200, plainResp 500]) 0 =
      (.ok .remoteError,
        [(.mergeCall, 400), (.reactivateCall, 200), (.mergeCall, 500)], 3) ∧
    CallKind.deactivateCall ∉
      ([(.mergeCall, 400), (.reactivateCall, 200), (.mergeCall, 500)] : List Call).map
        Prod.fst ∧
    finalActive false [(.mergeCall, 400), (.reactivateCall, 200), (.mergeCall, 500)] = true := by
  have h := claim_C4 (scriptOf [mergeInactive400, plainResp 200, plainResp 500]) 0 500
    (by decide) (by decide) (by decide) (by decide) (by decide)
  exact h

/-- C5 (amended): for `replace_secondary_emails`, `update_requester_emails`,
`add_secondary_emails` and `update_requester_external_id` every row
independently yields exactly one reported outcome, and a bad row never
aborts the rest; for `merge_requesters` a row with fewer than two fields is
skipped and the remaining rows are still processed, but a row with an
unparseable id (or an unparseable 400 merge-error body) raises a
`ValueError` caught only outside the row loop, aborting the remaining rows
— see the counterexample. -/
theorem claim_C5 :
    (∀ (s : Nat → HttpResponse) (i : Nat) (rows : List (List String)),
      (replace_secondary_emails s i rows).length = rows.length) ∧
    (∀ (s : Nat → HttpResponse) (i : Nat) (rows : List (List String)),
      (update_requester_emails s i rows).length = rows.length) ∧
    (∀ (s : Nat → HttpResponse) (i : Nat) (rows : List (List String)),
      (add_secondary_emails s i rows).length = rows.length) ∧
    (∀ (s : Nat → HttpResponse) (i : Nat) (rows : List (List String)),
      (update_requester_external_id s i rows).length = rows.length) ∧
    (∀ (s : Nat → HttpResponse) (i : Nat) (row : List String) (rest : List (List String)),
      row.length < 2 →
      merge_requesters s i (row :: rest) =
        (Outcome.validationFailed :: (merge_requesters s i rest).1,
          (merge_requesters s i rest).2)) := by
  refine ⟨?_, ?_, ?_, ?_, ?_⟩
  · intro s i rows
    induction rows generalizing i with
    | nil => rfl
    | cons row rest ih =>
      rcases hr : replace_row s i row with ⟨o, calls, i2⟩
      simp [replace_secondary_emails, hr, ih]
  · intro s i rows
    induction rows generalizing i with
    | nil => rfl
    | cons row rest ih =>
      rcases hr : update_emails_row s i row with ⟨o, calls, i2⟩
      simp [update_requester_emails, hr, ih]
  · intro s i rows
    induction rows generalizing i with
    | nil => rfl
    | cons row rest ih =>
      rcases hr : add_secondary_row s i row with ⟨o, b, calls, i2⟩
      simp [add_secondary_emails, hr, ih]
  · intro s i rows
    induction rows generalizing i with
    | nil => rfl
    | cons row rest ih =>
      rcases hr : update_external_id_row s i row with ⟨o, calls, i2⟩
      simp [update_requester_external_id, hr, ih]
  · intro s i row rest hlen
    simp only [merge_requesters]
    rw [if_pos hlen]

/-- C5 witness: a one-field merge row is skipped as invalid and the rest of
the file is still processed. -/
theorem claim_C5_witness :
    merge_requesters (fun _ => plainResp 200) 0 (["9"] :: [["1", "2"]]) =
      (Outcome.validationFailed :: (merge_requesters (fun _ => plainResp 200) 0 [["1", "2"]]).1,
        (merge_requesters (fun _ => plainResp 200) 0 [["1", "2"]]).2) :=
  claim_C5.2.2.2.2 (fun _ => plainResp 200) 0 ["9"] [["1", "2"]] (by decide)

/-- C5 counterexample: in a merge batch whose first row has the non-integer
id "x", the `int(...)` `ValueError` aborts the loop: the second, well-formed
row is never processed and yields no reported outcome, contradicting the
claim that the remaining rows of the file are still processed. -/
theorem claim_C5_counterexample :
    merge_requesters (fun _ => plainResp 200) 0 [["x", "2"], ["3", "4"]] = ([], true) ∧
    merge_requesters (fun _ => plainResp 200) 0 [["3", "4"]] = ([.success], false) := by
  exact ⟨by decide, by decide⟩

/-- C6: for every Deactivate response, status 204 yields Success, 404 yields
NotFound, 405 whose JSON body message equals exactly the "DELETE method is
not allowed..." text yields AlreadyInTargetState, and a 405 with any other
message (or an unparseable body) and any other status yield RemoteError. -/
theorem claim_C6 : ∀ r : HttpResponse, deactivate_requester r = deactivateClaimSpec r := by
  intro r
  unfold deactivate_requester deactivateClaimSpec
  rcases h : r.parsedMessage with - | mo
  · simp [h]
  · rcases mo with - | m
    · simp [h]
    · by_cases hm : m = deleteNotAllowed <;> simp [h, hm]

/-- C7: for every Reactivate whose primary PUT returns 404, the operation
issues a follow-up GET; GET 200 with `requester.active = true` yields
AlreadyInTargetState, GET 200 with `active = false` yields RemoteError
(never Success), GET 404 yields NotFound, and any other GET status yields
RemoteError. -/
theorem claim_C7 :
    ∀ (s : Nat → HttpResponse) (i : Nat), (s i).status = 404 →
      reactivate_requester s i =
        (reactivateGetClaimSpec (s (i + 1)),
          [(.reactivateCall, 404), (.getRequesterCall, (s (i + 1)).status)], i + 2) ∧
      reactivateGetClaimSpec (s (i + 1)) ≠ .success := by
  intro s i h404
  constructor
  · unfold reactivate_requester reactivateGetClaimSpec
    rcases ha : (s (i + 1)).parsedActive with - | b
    · simp [h404, ha]
    · cases b <;> simp [h404, ha]
  · unfold reactivateGetClaimSpec
    rcases ha : (s (i + 1)).parsedActive with - | b
    · simp only [ha]
      split_ifs <;> simp
    · cases b <;> simp only [ha] <;> split_ifs <;> simp

/-- C7 witness: a 404 reactivate followed by a GET 200 with `active = true`
yields AlreadyInTargetState after exactly the two calls. -/
theorem claim_C7_witness :
    reactivate_requester (scriptOf [plainResp 404, activeTrue200]) 0 =
      (.alreadyInTargetState, [(.reactivateCall, 404), (.getRequesterCall, 200)], 2) := by
  have h := claim_C7 (scriptOf [plainResp 404, activeTrue200]) 0 (by decide)
  simpa using h.1

/-- C8: for every UpdateEmails and ReplaceSecondaryEmails row whose first
PUT does not return 200, the row's call trace is exactly that one PUT — the
second PUT is never issued. -/
theorem claim_C8 :
    (∀ (s : Nat → HttpResponse) (i : Nat) (row : List String),
      ¬ row.length < 3 → (pyInt (row.getD 0 "")).isSome → (s i).status ≠ 200 →
        update_emails_row s i row =
          (.remoteError, [(.putPrimaryAndClear, (s i).status)], i + 1)) ∧
    (∀ (s : Nat → HttpResponse) (i : Nat) (row : List String),
      rowIdMissing row = false → (pyInt (pyStrip (row.headD ""))).isSome → (s i).status ≠ 200 →
        replace_row s i row =
          (.remoteError, [(.putClearSecondary, (s i).status)], i + 1)) := by
  constructor
  · intro s i row hlen hid h200
    obtain ⟨v, hv⟩ := Option.isSome_iff_exists.mp hid
    unfold update_emails_row
    rw [if_neg hlen, hv]
    simp [h200]
  · intro s i row hmiss hid h200
    obtain ⟨v, hv⟩ := Option.isSome_iff_exists.mp hid
    unfold replace_row
    rw [if_neg (by simp [hmiss] : ¬ rowIdMissing row = true), hv]
    simp [h200]

/-- C8 witness: with a failing first PUT (status 500), both row handlers
issue exactly one call and report a remote error. -/
theorem claim_C8_witness :
    update_emails_row (scriptOf [plainResp 500]) 0 ["1", "a@x.com", "b@x.com"] =
      (.remoteError, [(.putPrimaryAndClear, 500)], 1) ∧
    replace_row (scriptOf [plainResp 500]) 0 ["1", "a@x.com"] =
      (.remoteError, [(.putClearSecondary, 500)], 1) := by
  constructor
  · have h := claim_C8.1 (scriptOf [plainResp 500]) 0 ["1", "a@x.com", "b@x.com"]
      (by decide) (by decide) (by decide)
    simpa using h
  · have h := claim_C8.2 (scriptOf [plainResp 500]) 0 ["1", "a@x.com"]
      (by decide) (by decide) (by decide)
    simpa using h

/-- C9: for every AddSecondaryEmails row whose GET returns 200 with a list
of existing secondary emails, the PUT body is the duplicate-free union of
the existing and added emails: membership is exactly the union and the body
has no duplicates (order-independent equality only). -/
theorem claim_C9 :
    ∀ (s : Nat → HttpResponse) (i : Nat) (row : List String) (existing : List String),
      ¬ row.length < 2 → (pyInt (row.getD 0 "")).isSome → rowEmails row ≠ [] →
      (s i).status = 200 → (s i).secEmails = .list existing →
        (add_secondary_row s i row).2.1 =
          some (new_secondary_emails existing (rowEmails row)) ∧
        (∀ e, e ∈ new_secondary_emails existing (rowEmails row) ↔
          e ∈ existing ∨ e ∈ rowEmails row) ∧
        (new_secondary_emails existing (rowEmails row)).Nodup := by
  intro s i row existing hlen hid hne h200 hlist
  refine ⟨?_, ?_, ?_⟩
  · obtain ⟨v, hv⟩ := Option.isSome_iff_exists.mp hid
    unfold add_secondary_row
    rw [if_neg hlen, hv]
    simp only [hne, h200, hlist, existingOf, if_true, if_false, ite_true, ite_false]
    split <;> simp
  · intro e
    unfold new_secondary_emails
    simp [List.mem_dedup]
  · exact List.nodup_dedup _

/-- C9 witness: existing `["a@x.com"]` and adding `["a@x.com", "b@x.com"]`
produce the PUT body `["a@x.com", "b@x.com"]`: duplicates collapse and
membership is the union. -/
theorem claim_C9_witness :
    (add_secondary_row
        (scriptOf [⟨200, none, none, some none, some none, some false, .list ["a@x.com"]⟩,
          plainResp 200]) 0 ["7", "a@x.com", "b@x.com"]).2.1 =
      some (new_secondary_emails ["a@x.com"] ["a@x.com", "b@x.com"]) ∧
    ("b@x.com" ∈ new_secondary_emails ["a@x.com"] ["a@x.com", "b@x.com"] ↔
      "b@x.com" ∈ ["a@x.com"] ∨ "b@x.com" ∈ ["a@x.com", "b@x.com"]) ∧
    (new_secondary_emails ["a@x.com"] ["a@x.com", "b@x.com"]).Nodup := by
  have h := claim_C9
    (scriptOf [⟨200, none, none, some none, some none, some false, .list ["a@x.com"]⟩,
      plainResp 200]) 0 ["7", "a@x.com", "b@x.com"] ["a@x.com"]
    (by decide) (by decide) (by decide) (by decide) (by decide)
  have e : rowEmails ["7", "a@x.com", "b@x.com"] = ["a@x.com", "b@x.com"] := by decide
  rw [e] at h
  exact ⟨h.1, h.2.1 "b@x.com", h.2.2⟩

end FSUserCleanup
